import Mathlib

/-!
# CCS811 I2C driver (`mgos_ccs811.c`): shallow embedding and verified properties

The driver talks to three external collaborators: the I2C transport
(`mgos_i2c_write`, `mgos_i2c_read`, `mgos_i2c_write_reg_b`), the clock (`mg_time`,
`mgos_usleep`) and the allocator (`calloc`).  They are not part of the driver, so the
embedding takes them as an arbitrary environment `Env σ` over an arbitrary state `σ`;
every theorem that quantifies over `Env` holds for every bus, clock and allocator
behaviour.  Each I2C call is also recorded in a transaction log, so that statements
such as "no bus transaction is issued" can be written down.

Conventions
* `uint8_t`, `uint16_t`, `uint32_t` are `Nat` with an explicit `% 2 ^ w` where a value is
  stored or incremented.
* `double` values (`mg_time`, `last_read_time`, `read_success_usecs`) are exact rationals.
* a pointer that may be `NULL` is an `Option`.
* an output parameter (`uint8_t *status`) is passed in with its old contents and returned
  with its new contents.
* a local that the source leaves uninitialised (`uint8_t value`, the bytes of
  `uint8_t data[8]` other than `data[4]`) starts as 0; the transport overwrites it with
  whatever bytes it delivers.
* `LOG(...)` and `free` have no effect on any value and are left out.
-/

namespace CCS811

/-! ## Constants of `mgos_ccs811_internal.h` and `mgos_ccs811.h` -/

def MGOS_CCS811_READ_DELAY : ℚ := 2

def MGOS_CCS811_REG_STATUS : Nat := 0x00
def MGOS_CCS811_REG_MEAS_MODE : Nat := 0x01
def MGOS_CCS811_REG_ALG_RESULT_DATA : Nat := 0x02
def MGOS_CCS811_REG_HW_ID : Nat := 0x20
def MGOS_CCS811_REG_SW_RESET : Nat := 0xFF
def MGOS_CCS811_BOOTLOADER_REG_APP_START : Nat := 0xF4

def MGOS_CCS811_STATUS_ERR : Nat := 0x01
def MGOS_CCS811_STATUS_DATA_READY : Nat := 0x08
def MGOS_CCS811_STATUS_APP_VALID : Nat := 0x10
def MGOS_CCS811_STATUS_FW_MODE : Nat := 0x80

def MGOS_CCS811_HW_ID_CODE : Int := 0x81

/-! ## Data model -/

/-- The `struct mgos_ccs811_stats` of `mgos_ccs811.h`. -/
structure mgos_ccs811_stats where
  last_read_time : ℚ
  read : Nat
  read_success : Nat
  read_success_cached : Nat
  read_success_usecs : ℚ
deriving DecidableEq

/-- The `enum mgos_ccs811_drive_mode_t` of `mgos_ccs811.h`. -/
inductive mgos_ccs811_drive_mode_t where
  | CCS811_DRIVE_MODE_IDLE
  | CCS811_DRIVE_MODE_1SEC
  | CCS811_DRIVE_MODE_10SEC
  | CCS811_DRIVE_MODE_60SEC
  | CCS811_DRIVE_MODE_250MS
deriving DecidableEq

open mgos_ccs811_drive_mode_t

/-- The integer value of each enumerator. -/
def mgos_ccs811_drive_mode_t.val : mgos_ccs811_drive_mode_t → Nat
  | CCS811_DRIVE_MODE_IDLE => 0x00
  | CCS811_DRIVE_MODE_1SEC => 0x01
  | CCS811_DRIVE_MODE_10SEC => 0x02
  | CCS811_DRIVE_MODE_60SEC => 0x03
  | CCS811_DRIVE_MODE_250MS => 0x04

/-- A `struct mgos_i2c *` that is not `NULL`: the identity of a bus connection. -/
abbrev mgos_i2c := Nat

/-- The `struct mgos_ccs811` of `mgos_ccs811_internal.h`. -/
structure mgos_ccs811 where
  i2c : Option mgos_i2c
  i2caddr : Nat
  stats : mgos_ccs811_stats
  temperature_offset : ℚ
  tvoc : Nat
  eco2 : Nat
deriving DecidableEq

/-- A C `float` as this driver produces it: `NAN`, or a finite number. -/
inductive CFloat where
  | nan
  | num (v : ℚ)
deriving DecidableEq

/-- The value of `(float)n` for an unsigned integer `n`: IEEE-754 binary32 has a 24-bit
significand, larger integers are rounded to nearest, ties to even. -/
def float_of_uint (n : Nat) : CFloat :=
  if n < 2 ^ 24 then CFloat.num n
  else
    let ulp := 2 ^ (Nat.log2 n - 23)
    let q := n / ulp
    let r := n % ulp
    if 2 * r > ulp ∨ (2 * r = ulp ∧ q % 2 = 1) then CFloat.num (((q + 1) * ulp : Nat) : ℚ)
    else CFloat.num ((q * ulp : Nat) : ℚ)

/-! ## The environment: I2C transport, clock, allocator -/

/-- One call of the I2C transport, as recorded in the transaction log. -/
inductive I2COp where
  | write (addr : Nat) (data : List Nat) (stop : Bool)
  | read (addr : Nat) (len : Nat) (stop : Bool)
  | write_reg_b (addr : Nat) (reg : Nat) (value : Nat)
deriving DecidableEq

/-- The external collaborators, over an arbitrary state `σ`.
* `i2c_write d conn addr data stop` is `mgos_i2c_write`: its result and the next state.
* `i2c_read d conn addr len stop` is `mgos_i2c_read`: its result, the bytes it stored at
  the start of the caller's buffer, and the next state.
* `i2c_write_reg_b d conn addr reg value` is `mgos_i2c_write_reg_b`.
* `mg_time d` is `mg_time()`, `usleep d us` is `mgos_usleep(us)`.
* `calloc d` tells whether `calloc` returned a block.
* `esp8266` is the compile-time test `CS_PLATFORM == CS_P_ESP8266`. -/
structure Env (σ : Type) where
  i2c_write : σ → Option mgos_i2c → Nat → List Nat → Bool → Bool × σ
  i2c_read : σ → Option mgos_i2c → Nat → Nat → Bool → Bool × List Nat × σ
  i2c_write_reg_b : σ → Option mgos_i2c → Nat → Nat → Nat → Bool × σ
  mg_time : σ → ℚ × σ
  usleep : σ → Nat → σ
  calloc : σ → Bool × σ
  esp8266 : Bool

/-- The state of the environment together with the log of I2C calls made so far. -/
structure World (σ : Type) where
  dev : σ
  log : List I2COp

variable {σ : Type}

/-- `mgos_i2c_write(conn, addr, data, len, stop)`, logged. -/
def mgos_i2c_write (E : Env σ) (w : World σ) (conn : Option mgos_i2c) (addr : Nat)
    (data : List Nat) (stop : Bool) : Bool × World σ :=
  let r := E.i2c_write w.dev conn addr data stop
  (r.1, { dev := r.2, log := w.log ++ [I2COp.write addr data stop] })

/-- `mgos_i2c_read(conn, addr, buf, len, stop)`, logged; returns the bytes received. -/
def mgos_i2c_read (E : Env σ) (w : World σ) (conn : Option mgos_i2c) (addr : Nat)
    (len : Nat) (stop : Bool) : Bool × List Nat × World σ :=
  let r := E.i2c_read w.dev conn addr len stop
  (r.1, r.2.1, { dev := r.2.2, log := w.log ++ [I2COp.read addr len stop] })

/-- `mgos_i2c_write_reg_b(conn, addr, reg, value)`, logged. -/
def mgos_i2c_write_reg_b (E : Env σ) (w : World σ) (conn : Option mgos_i2c) (addr : Nat)
    (reg : Nat) (value : Nat) : Bool × World σ :=
  let r := E.i2c_write_reg_b w.dev conn addr reg value
  (r.1, { dev := r.2, log := w.log ++ [I2COp.write_reg_b addr reg value] })

/-- `mg_time()`. -/
def mg_time (E : Env σ) (w : World σ) : ℚ × World σ :=
  let r := E.mg_time w.dev
  (r.1, { w with dev := r.2 })

/-- `mgos_usleep(us)`. -/
def mgos_usleep (E : Env σ) (w : World σ) (us : Nat) : World σ :=
  { w with dev := E.usleep w.dev us }

/-- `calloc(1, sizeof(struct mgos_ccs811))`: whether a block was returned. -/
def calloc (E : Env σ) (w : World σ) : Bool × World σ :=
  let r := E.calloc w.dev
  (r.1, { w with dev := r.2 })

/-- Byte `i` of a `uint8_t` buffer after a transport read: the byte received at that
position, or the previous contents where the transport stored nothing. -/
def buf_get (old rx : List Nat) (i : Nat) : Nat :=
  (rx.getD i (old.getD i 0)) % 256

/-! ## The driver, `mgos_ccs811.c` -/

/-- `i2c_read_reg_n(conn, addr, reg, n, buf)`: result, bytes received, next world. -/
def i2c_read_reg_n (E : Env σ) (w : World σ) (conn : Option mgos_i2c) (addr : Nat)
    (reg : Nat) (n : Nat) : Bool × List Nat × World σ :=
  let wres := mgos_i2c_write E w conn addr [reg] false
  let w1 := if E.esp8266 then mgos_usleep E wres.2 50 else wres.2
  let rres := mgos_i2c_read E w1 conn addr n true
  (wres.1 && rres.1, rres.2.1, rres.2.2)

/-- `i2c_read_reg_b(conn, addr, reg)`: `-1` on failure, else the byte read. -/
def i2c_read_reg_b (E : Env σ) (w : World σ) (conn : Option mgos_i2c) (addr : Nat)
    (reg : Nat) : Int × World σ :=
  let r := i2c_read_reg_n E w conn addr reg 1
  if !r.1 then (-1, r.2.2)
  else ((buf_get [0] r.2.1 0 : Nat), r.2.2)

/-- `mgos_ccs811_getStatus(sensor, status)`: result, `*status` afterwards, next world. -/
def mgos_ccs811_getStatus (E : Env σ) (w : World σ) (sensor : Option mgos_ccs811)
    (status : Nat) : Bool × Nat × World σ :=
  match sensor with
  | none => (false, status, w)
  | some s =>
    let ret := i2c_read_reg_b E w s.i2c s.i2caddr MGOS_CCS811_REG_STATUS
    if ret.1 < 0 then (false, status, ret.2)
    else (true, ret.1.toNat % 256, ret.2)

/-- `mgos_ccs811_getMeasMode(sensor, meas_mode)`. -/
def mgos_ccs811_getMeasMode (E : Env σ) (w : World σ) (sensor : Option mgos_ccs811)
    (meas_mode : Nat) : Bool × Nat × World σ :=
  match sensor with
  | none => (false, meas_mode, w)
  | some s =>
    let ret := i2c_read_reg_b E w s.i2c s.i2caddr MGOS_CCS811_REG_MEAS_MODE
    if ret.1 < 0 then (false, meas_mode, ret.2)
    else (true, ret.1.toNat % 256, ret.2)

/-- `mgos_ccs811_dataready(sensor)`: true if the status register has data-ready set
(false upon read failure). -/
def mgos_ccs811_dataready (E : Env σ) (w : World σ) (sensor : Option mgos_ccs811) :
    Bool × World σ :=
  let r := mgos_ccs811_getStatus E w sensor 0
  if !r.1 then (false, r.2.2)
  else (decide (r.2.1 &&& MGOS_CCS811_STATUS_DATA_READY ≠ 0), r.2.2)

/-- `mgos_ccs811_reset(sensor)`: the 5-byte software-reset write. -/
def mgos_ccs811_reset (E : Env σ) (w : World σ) (sensor : Option mgos_ccs811) :
    Bool × World σ :=
  let data := [MGOS_CCS811_REG_SW_RESET, 0x11, 0xE5, 0x72, 0x8A]
  match sensor with
  | none => (false, w)
  | some s => mgos_i2c_write E w s.i2c s.i2caddr data true

/-- `mgos_ccs811_getDriveMode(sensor, mode)`: result, `*mode` afterwards, next world. -/
def mgos_ccs811_getDriveMode (E : Env σ) (w : World σ) (sensor : Option mgos_ccs811)
    (mode : Nat) : Bool × Nat × World σ :=
  let r := mgos_ccs811_getMeasMode E w sensor 0
  if !r.1 then (false, mode, r.2.2)
  else
    let meas_mode := (r.2.1 >>> 4) % 256
    let meas_mode := meas_mode &&& 0x07
    (true, meas_mode, r.2.2)

/-- `mgos_ccs811_setDriveMode(sensor, mode)`.  The source dereferences `sensor` without
a check, so the handle is taken as present. -/
def mgos_ccs811_setDriveMode (E : Env σ) (w : World σ) (sensor : mgos_ccs811)
    (mode : mgos_ccs811_drive_mode_t) : Bool × World σ :=
  let meas_mode := (mode.val <<< 4) % 256
  mgos_i2c_write_reg_b E w sensor.i2c sensor.i2caddr MGOS_CCS811_REG_MEAS_MODE meas_mode

/-- The handle as `mgos_ccs811_create` fills it in: zeroed, then address, bus and
`eco2 = 400`. -/
def new_sensor (i2c : Option mgos_i2c) (i2caddr : Nat) : mgos_ccs811 :=
  { i2c := i2c
    i2caddr := i2caddr
    stats := { last_read_time := 0, read := 0, read_success := 0,
               read_success_cached := 0, read_success_usecs := 0 }
    temperature_offset := 0
    tvoc := 0
    eco2 := 400 }

/-- `mgos_ccs811_create(i2c, i2caddr)`: the handle (`none` for `NULL`) and the next
world. -/
def mgos_ccs811_create (E : Env σ) (w : World σ) (i2c : Option mgos_i2c) (i2caddr : Nat) :
    Option mgos_ccs811 × World σ :=
  match i2c with
  | none => (none, w)
  | some _ =>
    let ret := i2c_read_reg_b E w i2c i2caddr MGOS_CCS811_REG_HW_ID
    if ret.1 ≠ MGOS_CCS811_HW_ID_CODE then (none, ret.2)
    else
      let a := calloc E ret.2
      if !a.1 then (none, a.2)
      else
        let sensor := new_sensor i2c i2caddr
        -- Boot the application on CCS811.
        let rst := mgos_ccs811_reset E a.2 (some sensor)
        if !rst.1 then (none, rst.2)
        else
          let w1 := mgos_usleep E rst.2 12000
          let cmd := MGOS_CCS811_BOOTLOADER_REG_APP_START
          let app := mgos_i2c_write E w1 sensor.i2c sensor.i2caddr [cmd] true
          let w2 := mgos_usleep E app.2 72000
          -- Read status (expecting FW_MODE to be set and ERR to be clear)
          let st := mgos_ccs811_getStatus E w2 (some sensor) MGOS_CCS811_STATUS_ERR
          if !st.1 then (none, st.2.2)
          else if st.2.1 &&& MGOS_CCS811_STATUS_FW_MODE = 0
                  ∨ st.2.1 &&& MGOS_CCS811_STATUS_ERR ≠ 0 then (none, st.2.2)
          else
            -- Set Drive Mode (1s samples)
            let w3 := mgos_usleep E st.2.2 5000
            let sd := mgos_ccs811_setDriveMode E w3 sensor CCS811_DRIVE_MODE_1SEC
            if !sd.1 then (none, sd.2)
            else
              let w4 := mgos_usleep E sd.2 72000
              let gd := mgos_ccs811_getDriveMode E w4 (some sensor)
                          CCS811_DRIVE_MODE_IDLE.val
              if !gd.1 then (none, gd.2.2)
              else if gd.2.1 ≠ CCS811_DRIVE_MODE_1SEC.val then (none, gd.2.2)
              else (some sensor, gd.2.2)

/-- The statement `sensor->stats.read++`. -/
def stats_read_incr (s : mgos_ccs811) : mgos_ccs811 :=
  { s with stats := { s.stats with read := (s.stats.read + 1) % 2 ^ 32 } }

/-- The statement `sensor->stats.read_success_cached++`. -/
def stats_cached_incr (s : mgos_ccs811) : mgos_ccs811 :=
  { s with stats := { s.stats with
      read_success_cached := (s.stats.read_success_cached + 1) % 2 ^ 32 } }

/-- `mgos_ccs811_read(sensor)`: result, the handle afterwards, next world. -/
def mgos_ccs811_read (E : Env σ) (w : World σ) (sensor : Option mgos_ccs811) :
    Bool × Option mgos_ccs811 × World σ :=
  let start := mg_time E w
  match sensor with
  | none => (false, none, start.2)
  | some s0 =>
    if s0.i2c = none then (false, some s0, start.2)
    else
      let s := stats_read_incr s0
      if start.1 - s.stats.last_read_time < MGOS_CCS811_READ_DELAY then
        (true, some (stats_cached_incr s), start.2)
      else
        -- Read out sensor data here
        let rdy := mgos_ccs811_dataready E start.2 (some s)
        if !rdy.1 then (true, some (stats_cached_incr s), rdy.2)
        else
          let data := [0, 0, 0, 0, MGOS_CCS811_STATUS_ERR, 0, 0, 0]
          let cmd := MGOS_CCS811_REG_ALG_RESULT_DATA
          let wr := mgos_i2c_write E rdy.2 s.i2c s.i2caddr [cmd] false
          let rd := mgos_i2c_read E wr.2 s.i2c s.i2caddr 8 true
          -- bytes 0-1:eco2 2-3:tvoc 4:status 5:error 6-7: raw_data
          if buf_get data rd.2.1 4 &&& MGOS_CCS811_STATUS_ERR ≠ 0 then
            (false, some s, rd.2.2)
          else
            let eco2 := ((buf_get data rd.2.1 0 <<< 8) ||| buf_get data rd.2.1 1) % 2 ^ 16
            let tvoc := ((buf_get data rd.2.1 2 <<< 8) ||| buf_get data rd.2.1 3) % 2 ^ 16
            let fin := mg_time E rd.2.2
            (true,
             some { s with
               eco2 := eco2
               tvoc := tvoc
               stats := { s.stats with
                 read_success := (s.stats.read_success + 1) % 2 ^ 32
                 read_success_usecs :=
                   s.stats.read_success_usecs + 1000000 * (fin.1 - start.1)
                 last_read_time := start.1 } },
             fin.2)

/-- `mgos_ccs811_get_eco2(sensor)`: the float returned, the handle afterwards, next
world. -/
def mgos_ccs811_get_eco2 (E : Env σ) (w : World σ) (sensor : Option mgos_ccs811) :
    CFloat × Option mgos_ccs811 × World σ :=
  let r := mgos_ccs811_read E w sensor
  if !r.1 then (CFloat.nan, r.2)
  else
    match r.2.1 with
    | none => (CFloat.nan, r.2)
    | some s => (float_of_uint s.eco2, r.2)

/-- `mgos_ccs811_get_tvoc(sensor)`. -/
def mgos_ccs811_get_tvoc (E : Env σ) (w : World σ) (sensor : Option mgos_ccs811) :
    CFloat × Option mgos_ccs811 × World σ :=
  let r := mgos_ccs811_read E w sensor
  if !r.1 then (CFloat.nan, r.2)
  else
    match r.2.1 with
    | none => (CFloat.nan, r.2)
    | some s => (float_of_uint s.tvoc, r.2)

/-- `mgos_ccs811_getStats(sensor, stats)`: result and the contents of `*stats`
afterwards (`none` when the output pointer is `NULL`). -/
def mgos_ccs811_getStats (sensor : Option mgos_ccs811) (stats : Option mgos_ccs811_stats) :
    Bool × Option mgos_ccs811_stats :=
  match sensor, stats with
  | some s, some _ => (true, some s.stats)
  | _, _ => (false, stats)

/-! ## Sequences of API calls on one handle -/

/-- One call of the public API on an existing handle, with its caller-supplied
arguments. -/
inductive Call where
  | read
  | get_eco2
  | get_tvoc
  | getStats (out : Option mgos_ccs811_stats)
  | setDriveMode (mode : mgos_ccs811_drive_mode_t)
  | getDriveMode (mode : Nat)

/-- The world and the handle after one call.  `getStats` only copies `sensor->stats` to
the caller and changes neither. -/
def step (E : Env σ) (st : World σ × mgos_ccs811) (c : Call) : World σ × mgos_ccs811 :=
  match c with
  | Call.read =>
    let r := mgos_ccs811_read E st.1 (some st.2)
    (r.2.2, r.2.1.getD st.2)
  | Call.get_eco2 =>
    let r := mgos_ccs811_get_eco2 E st.1 (some st.2)
    (r.2.2, r.2.1.getD st.2)
  | Call.get_tvoc =>
    let r := mgos_ccs811_get_tvoc E st.1 (some st.2)
    (r.2.2, r.2.1.getD st.2)
  | Call.getStats _ => st
  | Call.setDriveMode mode => ((mgos_ccs811_setDriveMode E st.1 st.2 mode).2, st.2)
  | Call.getDriveMode mode => ((mgos_ccs811_getDriveMode E st.1 (some st.2) mode).2.2, st.2)

/-- The world and the handle after a sequence of calls. -/
def run (E : Env σ) (st : World σ × mgos_ccs811) (calls : List Call) :
    World σ × mgos_ccs811 :=
  calls.foldl (step E) st

/-- The counters after `n` calls: `read` is at most `n` and the two success counters
together are at most `read`. -/
def counters_ok (n : Nat) (s : mgos_ccs811) : Prop :=
  s.stats.read ≤ n ∧ s.stats.read_success + s.stats.read_success_cached ≤ s.stats.read

instance (n : Nat) (s : mgos_ccs811) : Decidable (counters_ok n s) :=
  inferInstanceAs (Decidable (_ ∧ _))

/-! ## Two concrete environments

They are used to exhibit concrete executions of the driver. -/

/-- The state of a scripted environment: the answers still to be given to each kind
of call, in order. -/
structure Script where
  writes : List Bool
  reads : List (Bool × List Nat)
  reg_writes : List Bool
  times : List ℚ
  callocs : List Bool

/-- A scripted environment: every call takes the next answer of its kind (failure, no
bytes, time 0 once the script is used up). -/
def scriptEnv : Env Script where
  i2c_write d _ _ _ _ := (d.writes.headD false, { d with writes := d.writes.tail })
  i2c_read d _ _ _ _ :=
    ((d.reads.headD (false, [])).1, (d.reads.headD (false, [])).2,
     { d with reads := d.reads.tail })
  i2c_write_reg_b d _ _ _ _ :=
    (d.reg_writes.headD false, { d with reg_writes := d.reg_writes.tail })
  mg_time d := (d.times.headD 0, { d with times := d.times.tail })
  usleep d _ := d
  calloc d := (d.callocs.headD false, { d with callocs := d.callocs.tail })
  esp8266 := false

/-- The state of a register-file device: its registers and the register selected by
the last address write. -/
structure RegFile where
  regs : Nat → Nat
  sel : Nat

/-- A device that never fails: a 1-byte write selects a register, a register write
stores the byte, a read returns the registers from the selected one on. -/
def regEnv : Env RegFile where
  i2c_write d _ _ data _ :=
    match data with
    | [] => (true, d)
    | [reg] => (true, { d with sel := reg })
    | reg :: v :: _ => (true, { regs := Function.update d.regs reg v, sel := reg })
  i2c_read d _ _ len _ := (true, (List.range len).map (fun i => d.regs (d.sel + i)), d)
  i2c_write_reg_b d _ _ reg v := (true, { d with regs := Function.update d.regs reg v })
  mg_time d := (0, d)
  usleep d _ := d
  calloc d := (true, d)
  esp8266 := true

/-- A handle on bus connection 0 at the default address `0x5A`, as `create` leaves
it. -/
def sensor0 : mgos_ccs811 := new_sensor (some 0) 0x5A

/-- A scripted world with an empty transaction log. -/
def script_world (writes : List Bool) (reads : List (Bool × List Nat))
    (reg_writes : List Bool) (times : List ℚ) (callocs : List Bool) : World Script :=
  { dev := { writes := writes, reads := reads, reg_writes := reg_writes, times := times,
             callocs := callocs }
    log := [] }

/-- The status poll answers data-ready, the result payload is
`[0x01,0x90,0x00,0x32,0x00,0x00,0x00,0x00]`; the clock reads 10 and then 11. -/
def world_result_ok : World Script :=
  script_world [true, true]
    [(true, [0x08]), (true, [0x01, 0x90, 0x00, 0x32, 0x00, 0x00, 0x00, 0x00])] [] [10, 11] []

/-- The status poll answers data-ready, the result payload has ERR set in its status
byte (error id 2); the clock reads 10. -/
def world_result_err : World Script :=
  script_world [true, true]
    [(true, [0x08]), (true, [0x02, 0x58, 0x00, 0x64, 0x01, 0x02, 0x00, 0x00])] [] [10] []

/-- The clock reads 1 and then 3/2; any bus call would fail. -/
def world_within_delay : World Script :=
  script_world [] [] [] [1, 3 / 2] []

/-- The status poll answers a status byte with DATA_READY clear; the clock reads 10. -/
def world_not_ready : World Script :=
  script_world [true] [(true, [0x90])] [] [10] []

/-- The status poll fails on the bus; the clock reads 10. -/
def world_poll_fails : World Script :=
  script_world [false] [(false, [])] [] [10] []

/-- The HW_ID probe answers `0x00` instead of `0x81`. -/
def world_wrong_id : World Script :=
  script_world [true] [(true, [0x00])] [] [] []

/-- A register-file device as a CCS811 in firmware mode presents itself: HW_ID reads
`0x81`, STATUS reads `0x90` (FW_MODE and APP_VALID), every other register reads 0. -/
def world_ccs811 : World RegFile :=
  { dev := { regs := fun r => if r = 0x20 then 0x81 else if r = 0x00 then 0x90 else 0
             sel := 0 }
    log := [] }

/-- The register-file device behind a bus on which the 1-byte write of the APP_START
register address always reports failure. -/
def nakAppStartEnv : Env RegFile :=
  { regEnv with
    i2c_write := fun d conn addr data stop =>
      if data = [MGOS_CCS811_BOOTLOADER_REG_APP_START] then (false, d)
      else regEnv.i2c_write d conn addr data stop }

/-! ## Path lemmas for `mgos_ccs811_read` -/

theorem read_null (E : Env σ) (w : World σ) :
    mgos_ccs811_read E w none = (false, none, (mg_time E w).2) := rfl

theorem read_no_bus (E : Env σ) (w : World σ) (s : mgos_ccs811) (h : s.i2c = none) :
    mgos_ccs811_read E w (some s) = (false, some s, (mg_time E w).2) := by
  simp [mgos_ccs811_read, h]

theorem read_cached (E : Env σ) (w w1 : World σ) (s : mgos_ccs811) (start : ℚ)
    (h : s.i2c ≠ none) (ht : mg_time E w = (start, w1))
    (hc : start - s.stats.last_read_time < MGOS_CCS811_READ_DELAY) :
    mgos_ccs811_read E w (some s)
      = (true, some (stats_cached_incr (stats_read_incr s)), w1) := by
  have hc1 : start - (stats_read_incr s).stats.last_read_time < MGOS_CCS811_READ_DELAY := hc
  simp [mgos_ccs811_read, h, ht, hc1]

theorem read_not_ready (E : Env σ) (w w1 w2 : World σ) (s : mgos_ccs811) (start : ℚ)
    (h : s.i2c ≠ none) (ht : mg_time E w = (start, w1))
    (hc : ¬ start - s.stats.last_read_time < MGOS_CCS811_READ_DELAY)
    (hd : mgos_ccs811_dataready E w1 (some s) = (false, w2)) :
    mgos_ccs811_read E w (some s)
      = (true, some (stats_cached_incr (stats_read_incr s)), w2) := by
  have hc1 : ¬ start - (stats_read_incr s).stats.last_read_time < MGOS_CCS811_READ_DELAY :=
    hc
  have hd1 : mgos_ccs811_dataready E w1 (some (stats_read_incr s)) = (false, w2) := hd
  simp [mgos_ccs811_read, h, ht, hc1, hd1]

theorem read_device_error (E : Env σ) (w w1 w2 w3 w4 : World σ) (s : mgos_ccs811)
    (start : ℚ) (wres rres : Bool) (rx : List Nat)
    (h : s.i2c ≠ none) (ht : mg_time E w = (start, w1))
    (hc : ¬ start - s.stats.last_read_time < MGOS_CCS811_READ_DELAY)
    (hd : mgos_ccs811_dataready E w1 (some s) = (true, w2))
    (hw : mgos_i2c_write E w2 s.i2c s.i2caddr [MGOS_CCS811_REG_ALG_RESULT_DATA] false
            = (wres, w3))
    (hr : mgos_i2c_read E w3 s.i2c s.i2caddr 8 true = (rres, rx, w4))
    (he : buf_get [0, 0, 0, 0, MGOS_CCS811_STATUS_ERR, 0, 0, 0] rx 4
            &&& MGOS_CCS811_STATUS_ERR ≠ 0) :
    mgos_ccs811_read E w (some s) = (false, some (stats_read_incr s), w4) := by
  have hc1 : ¬ start - (stats_read_incr s).stats.last_read_time < MGOS_CCS811_READ_DELAY :=
    hc
  have hw1 : mgos_i2c_write E w2 (stats_read_incr s).i2c (stats_read_incr s).i2caddr
      [MGOS_CCS811_REG_ALG_RESULT_DATA] false = (wres, w3) := hw
  have hr1 : mgos_i2c_read E w3 (stats_read_incr s).i2c (stats_read_incr s).i2caddr 8 true
      = (rres, rx, w4) := hr
  have hd1 : mgos_ccs811_dataready E w1 (some (stats_read_incr s)) = (true, w2) := hd
  simp [mgos_ccs811_read, h, ht, hc1, hd1, hw1, hr1, he]

theorem read_fresh (E : Env σ) (w w1 w2 w3 w4 w5 : World σ) (s : mgos_ccs811)
    (start fin : ℚ) (wres rres : Bool) (rx : List Nat)
    (h : s.i2c ≠ none) (ht : mg_time E w = (start, w1))
    (hc : ¬ start - s.stats.last_read_time < MGOS_CCS811_READ_DELAY)
    (hd : mgos_ccs811_dataready E w1 (some s) = (true, w2))
    (hw : mgos_i2c_write E w2 s.i2c s.i2caddr [MGOS_CCS811_REG_ALG_RESULT_DATA] false
            = (wres, w3))
    (hr : mgos_i2c_read E w3 s.i2c s.i2caddr 8 true = (rres, rx, w4))
    (he : buf_get [0, 0, 0, 0, MGOS_CCS811_STATUS_ERR, 0, 0, 0] rx 4
            &&& MGOS_CCS811_STATUS_ERR = 0)
    (hf : mg_time E w4 = (fin, w5)) :
    mgos_ccs811_read E w (some s)
      = (true,
         some { stats_read_incr s with
           eco2 := ((buf_get [0, 0, 0, 0, MGOS_CCS811_STATUS_ERR, 0, 0, 0] rx 0 <<< 8)
                     ||| buf_get [0, 0, 0, 0, MGOS_CCS811_STATUS_ERR, 0, 0, 0] rx 1) % 2 ^ 16
           tvoc := ((buf_get [0, 0, 0, 0, MGOS_CCS811_STATUS_ERR, 0, 0, 0] rx 2 <<< 8)
                     ||| buf_get [0, 0, 0, 0, MGOS_CCS811_STATUS_ERR, 0, 0, 0] rx 3) % 2 ^ 16
           stats := { (stats_read_incr s).stats with
             read_success := (s.stats.read_success + 1) % 2 ^ 32
             read_success_usecs := s.stats.read_success_usecs + 1000000 * (fin - start)
             last_read_time := start } },
         w5) := by
  have hc1 : ¬ start - (stats_read_incr s).stats.last_read_time < MGOS_CCS811_READ_DELAY :=
    hc
  have hw1 : mgos_i2c_write E w2 (stats_read_incr s).i2c (stats_read_incr s).i2caddr
      [MGOS_CCS811_REG_ALG_RESULT_DATA] false = (wres, w3) := hw
  have hr1 : mgos_i2c_read E w3 (stats_read_incr s).i2c (stats_read_incr s).i2caddr 8 true
      = (rres, rx, w4) := hr
  have hd1 : mgos_ccs811_dataready E w1 (some (stats_read_incr s)) = (true, w2) := hd
  simp [mgos_ccs811_read, h, ht, hc1, hd1, hw1, hr1, he, hf]
  exact ⟨rfl, rfl⟩

/-! ## Facts about the register helpers -/

theorem buf_get_lt (old rx : List Nat) (i : Nat) : buf_get old rx i < 256 := by
  unfold buf_get
  omega

theorem read_reg_n_log (E : Env σ) (w : World σ) (conn : Option mgos_i2c)
    (addr reg n : Nat) :
    (i2c_read_reg_n E w conn addr reg n).2.2.log
      = w.log ++ [I2COp.write addr [reg] false, I2COp.read addr n true] := by
  unfold i2c_read_reg_n mgos_i2c_read mgos_i2c_write mgos_usleep
  cases E.esp8266 <;> simp

theorem read_reg_b_eq (E : Env σ) (w w1 : World σ) (conn : Option mgos_i2c)
    (addr reg : Nat) (ok : Bool) (rx : List Nat)
    (hp : i2c_read_reg_n E w conn addr reg 1 = (ok, rx, w1)) :
    i2c_read_reg_b E w conn addr reg
      = (if ok then ((buf_get [0] rx 0 : Nat) : Int) else -1, w1) := by
  unfold i2c_read_reg_b
  rw [hp]
  cases ok <;> simp

theorem getStatus_eq (E : Env σ) (w w1 : World σ) (s : mgos_ccs811) (status : Nat)
    (ok : Bool) (rx : List Nat)
    (hp : i2c_read_reg_n E w s.i2c s.i2caddr MGOS_CCS811_REG_STATUS 1 = (ok, rx, w1)) :
    mgos_ccs811_getStatus E w (some s) status
      = (ok, if ok then buf_get [0] rx 0 else status, w1) := by
  have hlt := buf_get_lt [0] rx 0
  unfold mgos_ccs811_getStatus
  simp only [read_reg_b_eq E w w1 s.i2c s.i2caddr _ ok rx hp]
  cases ok
  · simp
  · have h0 : ¬ ((buf_get [0] rx 0 : Nat) : Int) < 0 := by omega
    simp [h0, Nat.mod_eq_of_lt hlt]

theorem getMeasMode_eq (E : Env σ) (w w1 : World σ) (s : mgos_ccs811) (meas_mode : Nat)
    (ok : Bool) (rx : List Nat)
    (hp : i2c_read_reg_n E w s.i2c s.i2caddr MGOS_CCS811_REG_MEAS_MODE 1 = (ok, rx, w1)) :
    mgos_ccs811_getMeasMode E w (some s) meas_mode
      = (ok, if ok then buf_get [0] rx 0 else meas_mode, w1) := by
  have hlt := buf_get_lt [0] rx 0
  unfold mgos_ccs811_getMeasMode
  simp only [read_reg_b_eq E w w1 s.i2c s.i2caddr _ ok rx hp]
  cases ok
  · simp
  · have h0 : ¬ ((buf_get [0] rx 0 : Nat) : Int) < 0 := by omega
    simp [h0, Nat.mod_eq_of_lt hlt]

theorem dataready_eq (E : Env σ) (w w1 : World σ) (s : mgos_ccs811)
    (ok : Bool) (rx : List Nat)
    (hp : i2c_read_reg_n E w s.i2c s.i2caddr MGOS_CCS811_REG_STATUS 1 = (ok, rx, w1)) :
    mgos_ccs811_dataready E w (some s)
      = (ok && decide (buf_get [0] rx 0 &&& MGOS_CCS811_STATUS_DATA_READY ≠ 0), w1) := by
  unfold mgos_ccs811_dataready
  rw [getStatus_eq E w w1 s 0 ok rx hp]
  cases ok <;> simp

theorem mg_time_log (E : Env σ) (w : World σ) : (mg_time E w).2.log = w.log := rfl

theorem be16_eq (a b : Nat) (ha : a < 256) (hb : b < 256) :
    ((a <<< 8) ||| b) % 2 ^ 16 = 256 * a + b := by
  have h1 : a <<< 8 = 2 ^ 8 * a := by rw [Nat.shiftLeft_eq, Nat.mul_comm]
  have h2 : 2 ^ 8 * a ||| b = 2 ^ 8 * a + b :=
    (Nat.mul_add_lt_is_or (by simpa using hb) a).symm
  rw [h1, h2]
  omega

/-! ## Claims about `mgos_ccs811_read` -/

/-- C2: a read that is not served from cache, finds data-ready set and receives the
8-byte payload `b0 .. b7` whose status byte `b4` has ERR clear returns success and
stores `eco2 = 256 * b0 + b1`, `tvoc = 256 * b2 + b3`. -/
theorem read_decodes_big_endian (E : Env σ) (w w1 w2 w3 w4 w5 : World σ)
    (s : mgos_ccs811) (start fin : ℚ) (wres rres : Bool)
    (b0 b1 b2 b3 b4 b5 b6 b7 : Nat)
    (h : s.i2c ≠ none) (ht : mg_time E w = (start, w1))
    (hc : ¬ start - s.stats.last_read_time < MGOS_CCS811_READ_DELAY)
    (hd : mgos_ccs811_dataready E w1 (some s) = (true, w2))
    (hw : mgos_i2c_write E w2 s.i2c s.i2caddr [MGOS_CCS811_REG_ALG_RESULT_DATA] false
            = (wres, w3))
    (hr : mgos_i2c_read E w3 s.i2c s.i2caddr 8 true
            = (rres, [b0, b1, b2, b3, b4, b5, b6, b7], w4))
    (hb : b0 < 256 ∧ b1 < 256 ∧ b2 < 256 ∧ b3 < 256 ∧ b4 < 256)
    (he : b4 &&& MGOS_CCS811_STATUS_ERR = 0)
    (hf : mg_time E w4 = (fin, w5)) :
    (mgos_ccs811_read E w (some s)).1 = true
    ∧ (mgos_ccs811_read E w (some s)).2.1
        = some { s with
            eco2 := 256 * b0 + b1
            tvoc := 256 * b2 + b3
            stats := {
              last_read_time := start
              read := (s.stats.read + 1) % 2 ^ 32
              read_success := (s.stats.read_success + 1) % 2 ^ 32
              read_success_cached := s.stats.read_success_cached
              read_success_usecs := s.stats.read_success_usecs + 1000000 * (fin - start) } } := by
  obtain ⟨h0, h1, h2, h3, h4⟩ := hb
  have g0 : buf_get [0, 0, 0, 0, MGOS_CCS811_STATUS_ERR, 0, 0, 0]
      [b0, b1, b2, b3, b4, b5, b6, b7] 0 = b0 := by simp [buf_get, Nat.mod_eq_of_lt h0]
  have g1 : buf_get [0, 0, 0, 0, MGOS_CCS811_STATUS_ERR, 0, 0, 0]
      [b0, b1, b2, b3, b4, b5, b6, b7] 1 = b1 := by simp [buf_get, Nat.mod_eq_of_lt h1]
  have g2 : buf_get [0, 0, 0, 0, MGOS_CCS811_STATUS_ERR, 0, 0, 0]
      [b0, b1, b2, b3, b4, b5, b6, b7] 2 = b2 := by simp [buf_get, Nat.mod_eq_of_lt h2]
  have g3 : buf_get [0, 0, 0, 0, MGOS_CCS811_STATUS_ERR, 0, 0, 0]
      [b0, b1, b2, b3, b4, b5, b6, b7] 3 = b3 := by simp [buf_get, Nat.mod_eq_of_lt h3]
  have g4 : buf_get [0, 0, 0, 0, MGOS_CCS811_STATUS_ERR, 0, 0, 0]
      [b0, b1, b2, b3, b4, b5, b6, b7] 4 = b4 := by simp [buf_get, Nat.mod_eq_of_lt h4]
  have he1 : buf_get [0, 0, 0, 0, MGOS_CCS811_STATUS_ERR, 0, 0, 0]
      [b0, b1, b2, b3, b4, b5, b6, b7] 4 &&& MGOS_CCS811_STATUS_ERR = 0 := by rw [g4]; exact he
  rw [read_fresh E w w1 w2 w3 w4 w5 s start fin wres rres _ h ht hc hd hw hr he1 hf]
  rw [g0, g1, g2, g3, be16_eq b0 b1 h0 h1, be16_eq b2 b3 h2 h3]
  exact ⟨rfl, rfl⟩

/-- C2, at the payload `[0x01,0x90,0x00,0x32,0x00,0x00,0x00,0x00]`: eCO2 = 400 and
TVOC = 50 are stored. -/
theorem read_decodes_big_endian_witness :
    (mgos_ccs811_read scriptEnv world_result_ok (some sensor0)).1 = true
    ∧ (mgos_ccs811_read scriptEnv world_result_ok (some sensor0)).2.1
        = some { sensor0 with
            eco2 := 400
            tvoc := 50
            stats := {
              last_read_time := 10
              read := 1
              read_success := 1
              read_success_cached := 0
              read_success_usecs := 0 + 1000000 * (11 - 10) } } :=
  read_decodes_big_endian scriptEnv world_result_ok _ _ _ _ _ sensor0 10 11 true true
    0x01 0x90 0x00 0x32 0x00 0x00 0x00 0x00
    (by decide) rfl (by norm_num [sensor0, new_sensor, MGOS_CCS811_READ_DELAY]) rfl rfl rfl
    (by decide) (by decide) rfl

/-- C3: a read that reaches the result-data transaction and finds ERR set in byte 4 of
the data buffer returns failure; the handle afterwards differs from the handle before
only in `stats.read`, incremented once (as a `uint32_t`): `eco2`, `tvoc`, `read_success`
and `read_success_cached` are unchanged. -/
theorem read_err_keeps_values (E : Env σ) (w w1 w2 w3 w4 : World σ) (s : mgos_ccs811)
    (start : ℚ) (wres rres : Bool) (rx : List Nat)
    (h : s.i2c ≠ none) (ht : mg_time E w = (start, w1))
    (hc : ¬ start - s.stats.last_read_time < MGOS_CCS811_READ_DELAY)
    (hd : mgos_ccs811_dataready E w1 (some s) = (true, w2))
    (hw : mgos_i2c_write E w2 s.i2c s.i2caddr [MGOS_CCS811_REG_ALG_RESULT_DATA] false
            = (wres, w3))
    (hr : mgos_i2c_read E w3 s.i2c s.i2caddr 8 true = (rres, rx, w4))
    (he : buf_get [0, 0, 0, 0, MGOS_CCS811_STATUS_ERR, 0, 0, 0] rx 4
            &&& MGOS_CCS811_STATUS_ERR ≠ 0) :
    (mgos_ccs811_read E w (some s)).1 = false
    ∧ (mgos_ccs811_read E w (some s)).2.1
        = some { s with stats := { s.stats with read := (s.stats.read + 1) % 2 ^ 32 } } := by
  rw [read_device_error E w w1 w2 w3 w4 s start wres rres rx h ht hc hd hw hr he]
  exact ⟨rfl, rfl⟩

/-- C3, on a scripted bus whose result payload carries status byte `0x01`. -/
theorem read_err_keeps_values_witness :
    (mgos_ccs811_read scriptEnv world_result_err (some sensor0)).1 = false
    ∧ (mgos_ccs811_read scriptEnv world_result_err (some sensor0)).2.1
        = some { sensor0 with stats := { sensor0.stats with read := 1 } } :=
  read_err_keeps_values scriptEnv world_result_err _ _ _ _ sensor0 10 true true
    [0x02, 0x58, 0x00, 0x64, 0x01, 0x02, 0x00, 0x00]
    (by decide) rfl (by norm_num [sensor0, new_sensor, MGOS_CCS811_READ_DELAY]) rfl rfl rfl
    (by decide)

/-- C6: two consecutive reads, each started less than `MGOS_CCS811_READ_DELAY` seconds
after the handle's `last_read_time`, both return success; afterwards `read` and
`read_success_cached` have been incremented twice (as `uint32_t`), every other field of
the handle is unchanged, and the I2C transaction log is the one before the first call. -/
theorem read_twice_within_delay (E : Env σ) (w : World σ) (s s1 : mgos_ccs811)
    (h : s.i2c ≠ none)
    (hc1 : (mg_time E w).1 - s.stats.last_read_time < MGOS_CCS811_READ_DELAY)
    (hs1 : (mgos_ccs811_read E w (some s)).2.1 = some s1)
    (hc2 : (mg_time E (mgos_ccs811_read E w (some s)).2.2).1 - s1.stats.last_read_time
             < MGOS_CCS811_READ_DELAY) :
    (mgos_ccs811_read E w (some s)).1 = true
    ∧ (mgos_ccs811_read E (mgos_ccs811_read E w (some s)).2.2 (some s1)).1 = true
    ∧ (mgos_ccs811_read E (mgos_ccs811_read E w (some s)).2.2 (some s1)).2.1
        = some { s with stats := { s.stats with
                   read := (s.stats.read + 2) % 2 ^ 32
                   read_success_cached := (s.stats.read_success_cached + 2) % 2 ^ 32 } }
    ∧ (mgos_ccs811_read E w (some s)).2.2.log = w.log
    ∧ (mgos_ccs811_read E (mgos_ccs811_read E w (some s)).2.2 (some s1)).2.2.log = w.log := by
  have e1 := read_cached E w (mg_time E w).2 s (mg_time E w).1 h rfl hc1
  rw [e1] at hs1 hc2 ⊢
  have hs : s1 = stats_cached_incr (stats_read_incr s) := (Option.some.inj hs1).symm
  subst hs
  have e2 := read_cached E (mg_time E w).2 (mg_time E (mg_time E w).2).2
    (stats_cached_incr (stats_read_incr s)) (mg_time E (mg_time E w).2).1 h rfl hc2
  rw [e2]
  refine ⟨rfl, rfl, ?_, rfl, rfl⟩
  simp only [stats_cached_incr, stats_read_incr]
  have a1 : ((s.stats.read + 1) % 2 ^ 32 + 1) % 2 ^ 32 = (s.stats.read + 2) % 2 ^ 32 := by
    omega
  have a2 : ((s.stats.read_success_cached + 1) % 2 ^ 32 + 1) % 2 ^ 32
      = (s.stats.read_success_cached + 2) % 2 ^ 32 := by omega
  rw [a1, a2]

/-- C6, on a scripted clock reading 1 and 3/2 for a handle last read at time 0. -/
theorem read_twice_within_delay_witness :
    (mgos_ccs811_read scriptEnv world_within_delay (some sensor0)).1 = true
    ∧ (mgos_ccs811_read scriptEnv
         (mgos_ccs811_read scriptEnv world_within_delay (some sensor0)).2.2
         (some (stats_cached_incr (stats_read_incr sensor0)))).1 = true
    ∧ (mgos_ccs811_read scriptEnv
         (mgos_ccs811_read scriptEnv world_within_delay (some sensor0)).2.2
         (some (stats_cached_incr (stats_read_incr sensor0)))).2.1
        = some { sensor0 with stats := { sensor0.stats with
                   read := (sensor0.stats.read + 2) % 2 ^ 32
                   read_success_cached :=
                     (sensor0.stats.read_success_cached + 2) % 2 ^ 32 } }
    ∧ (mgos_ccs811_read scriptEnv world_within_delay (some sensor0)).2.2.log
        = world_within_delay.log
    ∧ (mgos_ccs811_read scriptEnv
         (mgos_ccs811_read scriptEnv world_within_delay (some sensor0)).2.2
         (some (stats_cached_incr (stats_read_incr sensor0)))).2.2.log
        = world_within_delay.log :=
  have e : mgos_ccs811_read scriptEnv world_within_delay (some sensor0)
      = (true, some (stats_cached_incr (stats_read_incr sensor0)),
         (mg_time scriptEnv world_within_delay).2) :=
    read_cached scriptEnv world_within_delay _ sensor0 1 (by decide) rfl
      (by norm_num [sensor0, new_sensor, MGOS_CCS811_READ_DELAY])
  read_twice_within_delay scriptEnv world_within_delay sensor0
    (stats_cached_incr (stats_read_incr sensor0)) (by decide)
    (by
      have : (mg_time scriptEnv world_within_delay).1 = 1 := rfl
      rw [this]
      norm_num [sensor0, new_sensor, MGOS_CCS811_READ_DELAY])
    (by rw [e])
    (by
      rw [e]
      have : (mg_time scriptEnv (mg_time scriptEnv world_within_delay).2).1 = 3 / 2 := rfl
      rw [this]
      norm_num [sensor0, new_sensor, MGOS_CCS811_READ_DELAY, stats_cached_incr,
        stats_read_incr])

/-- C9: when the handle was last read at least `MGOS_CCS811_READ_DELAY` seconds ago and
the status poll either fails on the bus (`ok = false`) or delivers a status byte with
DATA_READY clear, the read returns success; the handle afterwards is the handle before
with `read` and `read_success_cached` incremented once each (so `eco2`, `tvoc`,
`read_success` and `last_read_time` are unchanged, and the outcome is the same in both
cases); the only bus traffic is the status poll itself. -/
theorem read_poll_unready (E : Env σ) (w w1 w2 : World σ) (s : mgos_ccs811)
    (start : ℚ) (ok : Bool) (rx : List Nat)
    (h : s.i2c ≠ none) (ht : mg_time E w = (start, w1))
    (hc : MGOS_CCS811_READ_DELAY ≤ start - s.stats.last_read_time)
    (hp : i2c_read_reg_n E w1 s.i2c s.i2caddr MGOS_CCS811_REG_STATUS 1 = (ok, rx, w2))
    (hn : ok = false ∨ buf_get [0] rx 0 &&& MGOS_CCS811_STATUS_DATA_READY = 0) :
    (mgos_ccs811_read E w (some s)).1 = true
    ∧ (mgos_ccs811_read E w (some s)).2.1
        = some { s with stats := { s.stats with
                   read := (s.stats.read + 1) % 2 ^ 32
                   read_success_cached := (s.stats.read_success_cached + 1) % 2 ^ 32 } }
    ∧ (mgos_ccs811_read E w (some s)).2.2.log
        = w.log ++ [I2COp.write s.i2caddr [MGOS_CCS811_REG_STATUS] false,
                    I2COp.read s.i2caddr 1 true] := by
  have hd : mgos_ccs811_dataready E w1 (some s) = (false, w2) := by
    rw [dataready_eq E w1 w2 s ok rx hp]
    rcases hn with hn | hn
    · simp [hn]
    · simp [hn]
  have hlog : w2.log = w.log ++ [I2COp.write s.i2caddr [MGOS_CCS811_REG_STATUS] false,
      I2COp.read s.i2caddr 1 true] := by
    have h1 := read_reg_n_log E w1 s.i2c s.i2caddr MGOS_CCS811_REG_STATUS 1
    rw [hp] at h1
    have h2 : w1.log = w.log := by
      have := mg_time_log E w
      rw [ht] at this
      exact this
    rw [← h2]
    exact h1
  rw [read_not_ready E w w1 w2 s start h ht (not_lt.mpr hc) hd]
  exact ⟨rfl, rfl, hlog⟩

/-- C9, on a scripted bus whose status poll delivers `0x90` (DATA_READY clear). -/
theorem read_poll_unready_witness :
    (mgos_ccs811_read scriptEnv world_not_ready (some sensor0)).1 = true
    ∧ (mgos_ccs811_read scriptEnv world_not_ready (some sensor0)).2.1
        = some { sensor0 with stats := { sensor0.stats with
                   read := 1
                   read_success_cached := 1 } }
    ∧ (mgos_ccs811_read scriptEnv world_not_ready (some sensor0)).2.2.log
        = [I2COp.write 0x5A [0x00] false, I2COp.read 0x5A 1 true] :=
  read_poll_unready scriptEnv world_not_ready _ _ sensor0 10 true [0x90]
    (by decide) rfl (by norm_num [sensor0, new_sensor, MGOS_CCS811_READ_DELAY]) rfl
    (Or.inr (by decide))

/-- The three ways a read on a handle with a bus connection can end. -/
theorem read_cases (E : Env σ) (w : World σ) (s : mgos_ccs811) (h : s.i2c ≠ none) :
    (∃ w1, mgos_ccs811_read E w (some s)
        = (true, some (stats_cached_incr (stats_read_incr s)), w1))
    ∨ (∃ w1, mgos_ccs811_read E w (some s) = (false, some (stats_read_incr s), w1))
    ∨ (∃ w1 e t u, e < 2 ^ 16 ∧ t < 2 ^ 16 ∧ mgos_ccs811_read E w (some s)
        = (true,
           some { stats_read_incr s with
             eco2 := e
             tvoc := t
             stats := { (stats_read_incr s).stats with
               read_success := (s.stats.read_success + 1) % 2 ^ 32
               read_success_usecs := u
               last_read_time := (mg_time E w).1 } },
           w1)) := by
  by_cases hc : (mg_time E w).1 - s.stats.last_read_time < MGOS_CCS811_READ_DELAY
  · exact Or.inl ⟨_, read_cached E w _ s _ h rfl hc⟩
  · rcases hd : mgos_ccs811_dataready E (mg_time E w).2 (some s) with ⟨rdy, w2⟩
    cases rdy
    · exact Or.inl ⟨_, read_not_ready E w _ w2 s _ h rfl hc hd⟩
    · rcases hr : mgos_i2c_read E
        (mgos_i2c_write E w2 s.i2c s.i2caddr [MGOS_CCS811_REG_ALG_RESULT_DATA] false).2
        s.i2c s.i2caddr 8 true with ⟨rres, rx, w4⟩
      by_cases he : buf_get [0, 0, 0, 0, MGOS_CCS811_STATUS_ERR, 0, 0, 0] rx 4
          &&& MGOS_CCS811_STATUS_ERR = 0
      · refine Or.inr (Or.inr ⟨_, _, _, _, ?_, ?_,
          read_fresh E w _ w2 _ w4 _ s _ _ _ rres rx h rfl hc hd rfl hr he rfl⟩)
        · exact Nat.mod_lt _ (by norm_num)
        · exact Nat.mod_lt _ (by norm_num)
      · exact Or.inr (Or.inl ⟨_, read_device_error E w _ w2 _ w4 s _ _ rres rx h rfl hc hd
          rfl hr he⟩)

theorem float_of_uint16 (n : Nat) (h : n < 2 ^ 16) : float_of_uint n = CFloat.num n := by
  unfold float_of_uint
  rw [if_pos (by omega)]

/-- C4: for an absent handle and for every handle `s` (whose `uint16_t` fields hold
16-bit values), under every environment, `get_eco2` and `get_tvoc` return NAN exactly
when the `read` they perform returns failure; when it returns success they return the
`eco2` / `tvoc` stored in the handle after that read, as the same number; on a cache
hit that is the value the handle held before the call. -/
theorem get_eco2_tvoc_nan_iff (E : Env σ) (w : World σ) (s : mgos_ccs811)
    (hwf : s.eco2 < 2 ^ 16 ∧ s.tvoc < 2 ^ 16) :
    ((mgos_ccs811_read E w none).1 = false
      ∧ (mgos_ccs811_get_eco2 E w none).1 = CFloat.nan
      ∧ (mgos_ccs811_get_tvoc E w none).1 = CFloat.nan)
    ∧ ((mgos_ccs811_get_eco2 E w (some s)).1 = CFloat.nan
        ↔ (mgos_ccs811_read E w (some s)).1 = false)
    ∧ ((mgos_ccs811_get_tvoc E w (some s)).1 = CFloat.nan
        ↔ (mgos_ccs811_read E w (some s)).1 = false)
    ∧ ((mgos_ccs811_read E w (some s)).1 = true →
        some (mgos_ccs811_get_eco2 E w (some s)).1
          = Option.map (fun x => CFloat.num (x.eco2 : ℚ)) (mgos_ccs811_read E w (some s)).2.1
        ∧ some (mgos_ccs811_get_tvoc E w (some s)).1
          = Option.map (fun x => CFloat.num (x.tvoc : ℚ)) (mgos_ccs811_read E w (some s)).2.1)
    ∧ (s.i2c ≠ none →
        (mg_time E w).1 - s.stats.last_read_time < MGOS_CCS811_READ_DELAY →
        (mgos_ccs811_get_eco2 E w (some s)).1 = CFloat.num (s.eco2 : ℚ)
        ∧ (mgos_ccs811_get_tvoc E w (some s)).1 = CFloat.num (s.tvoc : ℚ)) := by
  obtain ⟨he, hv⟩ := hwf
  refine ⟨⟨rfl, rfl, rfl⟩, ?_⟩
  have hcache : s.i2c ≠ none →
      (mg_time E w).1 - s.stats.last_read_time < MGOS_CCS811_READ_DELAY →
      (mgos_ccs811_get_eco2 E w (some s)).1 = CFloat.num (s.eco2 : ℚ)
      ∧ (mgos_ccs811_get_tvoc E w (some s)).1 = CFloat.num (s.tvoc : ℚ) := by
    intro h hc
    have e := read_cached E w _ s _ h rfl hc
    simp only [mgos_ccs811_get_eco2, mgos_ccs811_get_tvoc, e]
    simp [stats_cached_incr, stats_read_incr, float_of_uint16 _ he, float_of_uint16 _ hv]
  by_cases h : s.i2c = none
  · have e := read_no_bus E w s h
    simp only [mgos_ccs811_get_eco2, mgos_ccs811_get_tvoc, e]
    simp [h]
  · refine ⟨?_, ?_, ?_, hcache⟩
    all_goals
      rcases read_cases E w s h with ⟨w1, e⟩ | ⟨w1, e⟩ | ⟨w1, a, t, u, ha, ht, e⟩
      · simp only [mgos_ccs811_get_eco2, mgos_ccs811_get_tvoc, e]
        simp [stats_cached_incr, stats_read_incr, float_of_uint16 _ he, float_of_uint16 _ hv]
      · simp only [mgos_ccs811_get_eco2, mgos_ccs811_get_tvoc, e]
        simp
      · simp only [mgos_ccs811_get_eco2, mgos_ccs811_get_tvoc, e]
        simp [float_of_uint16 _ ha, float_of_uint16 _ ht]

/-- C4, on a scripted bus delivering eCO2 = 400 and TVOC = 50. -/
theorem get_eco2_tvoc_nan_iff_witness :
    (sensor0.eco2 < 2 ^ 16 ∧ sensor0.tvoc < 2 ^ 16)
    ∧ ((mgos_ccs811_get_eco2 scriptEnv world_result_ok (some sensor0)).1 = CFloat.nan
        ↔ (mgos_ccs811_read scriptEnv world_result_ok (some sensor0)).1 = false) :=
  ⟨by decide,
   (get_eco2_tvoc_nan_iff scriptEnv world_result_ok sensor0 (by decide)).2.1⟩

/-! ## The statistics invariant -/

theorem get_eco2_snd (E : Env σ) (w : World σ) (sensor : Option mgos_ccs811) :
    (mgos_ccs811_get_eco2 E w sensor).2 = (mgos_ccs811_read E w sensor).2 := by
  unfold mgos_ccs811_get_eco2
  generalize mgos_ccs811_read E w sensor = r
  rcases r with ⟨b, o, w1⟩
  cases b <;> cases o <;> rfl

theorem get_tvoc_snd (E : Env σ) (w : World σ) (sensor : Option mgos_ccs811) :
    (mgos_ccs811_get_tvoc E w sensor).2 = (mgos_ccs811_read E w sensor).2 := by
  unfold mgos_ccs811_get_tvoc
  generalize mgos_ccs811_read E w sensor = r
  rcases r with ⟨b, o, w1⟩
  cases b <;> cases o <;> rfl

/-- How one `mgos_ccs811_read` changes the counters of a handle with a bus connection. -/
theorem read_counters (E : Env σ) (w : World σ) (s : mgos_ccs811) (h : s.i2c ≠ none) :
    ∃ s1, (mgos_ccs811_read E w (some s)).2.1 = some s1
      ∧ s1.i2c = s.i2c
      ∧ s1.stats.read = (s.stats.read + 1) % 2 ^ 32
      ∧ ((s1.stats.read_success = s.stats.read_success
            ∧ s1.stats.read_success_cached = s.stats.read_success_cached)
          ∨ (s1.stats.read_success = (s.stats.read_success + 1) % 2 ^ 32
            ∧ s1.stats.read_success_cached = s.stats.read_success_cached)
          ∨ (s1.stats.read_success = s.stats.read_success
            ∧ s1.stats.read_success_cached
                = (s.stats.read_success_cached + 1) % 2 ^ 32)) := by
  rcases read_cases E w s h with ⟨w1, e⟩ | ⟨w1, e⟩ | ⟨w1, a, t, u, _, _, e⟩
  · rw [e]
    exact ⟨_, rfl, rfl, rfl, Or.inr (Or.inr ⟨rfl, rfl⟩)⟩
  · rw [e]
    exact ⟨_, rfl, rfl, rfl, Or.inl ⟨rfl, rfl⟩⟩
  · rw [e]
    exact ⟨_, rfl, rfl, rfl, Or.inr (Or.inl ⟨rfl, rfl⟩)⟩

/-- The handle after a call that performs a read, whichever of the three entry points
is used. -/
theorem step_read_handle (E : Env σ) (st : World σ × mgos_ccs811) (c : Call)
    (hc : c = Call.read ∨ c = Call.get_eco2 ∨ c = Call.get_tvoc) :
    (step E st c).2 = (mgos_ccs811_read E st.1 (some st.2)).2.1.getD st.2 := by
  rcases hc with hc | hc | hc <;> subst hc
  · rfl
  · simp only [step, get_eco2_snd]
  · simp only [step, get_tvoc_snd]

/-- A call that performs no read leaves the handle as it is. -/
theorem step_other_handle (E : Env σ) (st : World σ × mgos_ccs811) (c : Call)
    (hc : ¬ (c = Call.read ∨ c = Call.get_eco2 ∨ c = Call.get_tvoc)) :
    (step E st c).2 = st.2 := by
  cases c <;> first | rfl | exact absurd (by simp) hc

theorem step_counters_ok (E : Env σ) (st : World σ × mgos_ccs811) (c : Call) (n : Nat)
    (hn : n + 1 < 2 ^ 32) (hinv : counters_ok n st.2) :
    counters_ok (n + 1) (step E st c).2 := by
  obtain ⟨h1, h2⟩ := hinv
  by_cases hc : c = Call.read ∨ c = Call.get_eco2 ∨ c = Call.get_tvoc
  · rw [step_read_handle E st c hc]
    by_cases hb : st.2.i2c = none
    · rw [read_no_bus E st.1 st.2 hb]
      exact ⟨Nat.le_succ_of_le h1, h2⟩
    · obtain ⟨s1, e, _, hr, hcs⟩ := read_counters E st.1 st.2 hb
      rw [e]
      simp only [Option.getD_some]
      unfold counters_ok
      rcases hcs with ⟨ha, hb⟩ | ⟨ha, hb⟩ | ⟨ha, hb⟩ <;> rw [hr, ha, hb] <;> omega
  · rw [step_other_handle E st c hc]
    exact ⟨Nat.le_succ_of_le h1, h2⟩

theorem run_counters_ok (E : Env σ) (calls : List Call) :
    ∀ (st : World σ × mgos_ccs811) (n : Nat), n + calls.length < 2 ^ 32 →
      counters_ok n st.2 → counters_ok (n + calls.length) (run E st calls).2 := by
  induction calls with
  | nil => intro st n _ hinv; exact hinv
  | cons c cs ih =>
    intro st n hn hinv
    simp only [List.length_cons] at hn ⊢
    have h1 := step_counters_ok E st c n (by omega) hinv
    have h2 := ih (step E st c) (n + 1) (by omega) h1
    have e : n + (cs.length + 1) = n + 1 + cs.length := by omega
    rw [e]
    exact h2

/-- C5: starting from a handle whose three counters are zero, after any sequence of
fewer than `2 ^ 32` API calls, under every environment,
`read_success + read_success_cached ≤ read`; and every call in the sequence that
performs a read on a handle with a bus connection increases `read` by exactly 1 and
either leaves both success counters alone or increases exactly one of them by 1. -/
theorem stats_invariant (E : Env σ) (w0 : World σ) (s0 : mgos_ccs811) (calls : List Call)
    (h0 : s0.stats.read = 0 ∧ s0.stats.read_success = 0
            ∧ s0.stats.read_success_cached = 0)
    (hlen : calls.length < 2 ^ 32) :
    (run E (w0, s0) calls).2.stats.read_success
        + (run E (w0, s0) calls).2.stats.read_success_cached
      ≤ (run E (w0, s0) calls).2.stats.read
    ∧ ∀ (pre post : List Call) (c : Call), calls = pre ++ c :: post →
        (c = Call.read ∨ c = Call.get_eco2 ∨ c = Call.get_tvoc) →
        (run E (w0, s0) pre).2.i2c ≠ none →
        (step E (run E (w0, s0) pre) c).2.stats.read
            = (run E (w0, s0) pre).2.stats.read + 1
        ∧ (((step E (run E (w0, s0) pre) c).2.stats.read_success
                = (run E (w0, s0) pre).2.stats.read_success
              ∧ (step E (run E (w0, s0) pre) c).2.stats.read_success_cached
                = (run E (w0, s0) pre).2.stats.read_success_cached)
            ∨ ((step E (run E (w0, s0) pre) c).2.stats.read_success
                = (run E (w0, s0) pre).2.stats.read_success + 1
              ∧ (step E (run E (w0, s0) pre) c).2.stats.read_success_cached
                = (run E (w0, s0) pre).2.stats.read_success_cached)
            ∨ ((step E (run E (w0, s0) pre) c).2.stats.read_success
                = (run E (w0, s0) pre).2.stats.read_success
              ∧ (step E (run E (w0, s0) pre) c).2.stats.read_success_cached
                = (run E (w0, s0) pre).2.stats.read_success_cached + 1)) := by
  obtain ⟨hr, hs, hcd⟩ := h0
  have hstart : counters_ok 0 (w0, s0).2 := by
    unfold counters_ok
    simp [hr, hs, hcd]
  constructor
  · have h := run_counters_ok E calls (w0, s0) 0 (by omega) hstart
    exact h.2
  · intro pre post c hsplit hc hbus
    have hl : pre.length + 1 ≤ calls.length := by
      rw [hsplit]
      simp
    have hpre := run_counters_ok E pre (w0, s0) 0 (by omega) hstart
    obtain ⟨p1, p2⟩ := hpre
    rw [step_read_handle E _ c hc]
    obtain ⟨s1, e, _, hrd, hcs⟩ := read_counters E (run E (w0, s0) pre).1
      (run E (w0, s0) pre).2 hbus
    rw [e]
    simp only [Option.getD_some]
    have q1 : (run E (w0, s0) pre).2.stats.read + 1 < 2 ^ 32 := by omega
    refine ⟨by rw [hrd]; exact Nat.mod_eq_of_lt q1, ?_⟩
    rcases hcs with ⟨ha, hb⟩ | ⟨ha, hb⟩ | ⟨ha, hb⟩
    · exact Or.inl ⟨ha, hb⟩
    · refine Or.inr (Or.inl ⟨?_, hb⟩)
      rw [ha]
      exact Nat.mod_eq_of_lt (by omega)
    · refine Or.inr (Or.inr ⟨ha, ?_⟩)
      rw [hb]
      exact Nat.mod_eq_of_lt (by omega)

/-- C5, for a cached read followed by two drive-mode calls on a fresh handle. -/
theorem stats_invariant_witness :
    (run scriptEnv (world_within_delay, sensor0)
        [Call.read, Call.setDriveMode CCS811_DRIVE_MODE_10SEC,
         Call.getDriveMode 0]).2.stats.read_success
      + (run scriptEnv (world_within_delay, sensor0)
          [Call.read, Call.setDriveMode CCS811_DRIVE_MODE_10SEC,
           Call.getDriveMode 0]).2.stats.read_success_cached
      ≤ (run scriptEnv (world_within_delay, sensor0)
          [Call.read, Call.setDriveMode CCS811_DRIVE_MODE_10SEC,
           Call.getDriveMode 0]).2.stats.read :=
  (stats_invariant scriptEnv world_within_delay sensor0
    [Call.read, Call.setDriveMode CCS811_DRIVE_MODE_10SEC, Call.getDriveMode 0]
    ⟨rfl, rfl, rfl⟩ (by norm_num)).1


theorem getDriveMode_eq (E : Env σ) (w w1 : World σ) (s : mgos_ccs811) (mode : Nat)
    (ok : Bool) (rx : List Nat)
    (hp : i2c_read_reg_n E w s.i2c s.i2caddr MGOS_CCS811_REG_MEAS_MODE 1 = (ok, rx, w1)) :
    mgos_ccs811_getDriveMode E w (some s) mode
      = (ok, if ok then (buf_get [0] rx 0 >>> 4) &&& 0x07 else mode, w1) := by
  have hlt := buf_get_lt [0] rx 0
  have h4 : (buf_get [0] rx 0 >>> 4) % 256 = buf_get [0] rx 0 >>> 4 := by
    rw [Nat.shiftRight_eq_div_pow]
    norm_num
    omega
  unfold mgos_ccs811_getDriveMode
  rw [getMeasMode_eq E w w1 s 0 ok rx hp]
  cases ok
  · simp
  · simp [h4]

/-- The whole of `mgos_ccs811_create` on a supplied bus, in terms of what each bring-up
transaction answers. -/
theorem create_eq (E : Env σ) (w w1 w2 w3 w4 w5 w6 w7 : World σ) (c : mgos_i2c)
    (addr : Nat) (pok cal rst app sok dset gok : Bool) (prx srx grx : List Nat)
    (hprobe : i2c_read_reg_n E w (some c) addr MGOS_CCS811_REG_HW_ID 1 = (pok, prx, w1))
    (hcalloc : calloc E w1 = (cal, w2))
    (hreset : mgos_i2c_write E w2 (some c) addr
                [MGOS_CCS811_REG_SW_RESET, 0x11, 0xE5, 0x72, 0x8A] true = (rst, w3))
    (happ : mgos_i2c_write E (mgos_usleep E w3 12000) (some c) addr
              [MGOS_CCS811_BOOTLOADER_REG_APP_START] true = (app, w4))
    (hstatus : i2c_read_reg_n E (mgos_usleep E w4 72000) (some c) addr
                 MGOS_CCS811_REG_STATUS 1 = (sok, srx, w5))
    (hset : mgos_i2c_write_reg_b E (mgos_usleep E w5 5000) (some c) addr
              MGOS_CCS811_REG_MEAS_MODE 0x10 = (dset, w6))
    (hget : i2c_read_reg_n E (mgos_usleep E w6 72000) (some c) addr
              MGOS_CCS811_REG_MEAS_MODE 1 = (gok, grx, w7)) :
    mgos_ccs811_create E w (some c) addr
      = if pok = false ∨ buf_get [0] prx 0 ≠ 0x81 then (none, w1)
        else if cal = false then (none, w2)
        else if rst = false then (none, w3)
        else if sok = false ∨ buf_get [0] srx 0 &&& MGOS_CCS811_STATUS_FW_MODE = 0
                ∨ buf_get [0] srx 0 &&& MGOS_CCS811_STATUS_ERR ≠ 0 then (none, w5)
        else if dset = false then (none, w6)
        else if gok = false ∨ (buf_get [0] grx 0 >>> 4) &&& 0x07 ≠ 1 then (none, w7)
        else (some (new_sensor (some c) addr), w7) := by
  have e1 := read_reg_b_eq E w w1 (some c) addr MGOS_CCS811_REG_HW_ID pok prx hprobe
  have e3 : mgos_ccs811_reset E w2 (some (new_sensor (some c) addr)) = (rst, w3) := hreset
  have e4 : mgos_i2c_write E (mgos_usleep E w3 12000) (new_sensor (some c) addr).i2c
      (new_sensor (some c) addr).i2caddr [MGOS_CCS811_BOOTLOADER_REG_APP_START] true
      = (app, w4) := happ
  have e5 := getStatus_eq E (mgos_usleep E w4 72000) w5 (new_sensor (some c) addr)
    MGOS_CCS811_STATUS_ERR sok srx hstatus
  have e6 : mgos_ccs811_setDriveMode E (mgos_usleep E w5 5000) (new_sensor (some c) addr)
      CCS811_DRIVE_MODE_1SEC = (dset, w6) := hset
  have e7 := getDriveMode_eq E (mgos_usleep E w6 72000) w7 (new_sensor (some c) addr)
    CCS811_DRIVE_MODE_IDLE.val gok grx hget
  unfold mgos_ccs811_create
  simp only [e1, hcalloc, e3, e4, e5, e6, e7]
  cases pok
  · simp [MGOS_CCS811_HW_ID_CODE]
  · by_cases hb : buf_get [0] prx 0 = 0x81
    · cases cal <;> cases rst <;> cases sok <;> cases dset <;> cases gok <;>
        simp [hb, MGOS_CCS811_HW_ID_CODE, mgos_ccs811_drive_mode_t.val]
    · have hb1 : ¬ ((buf_get [0] prx 0 : Nat) : Int) = MGOS_CCS811_HW_ID_CODE := by
        unfold MGOS_CCS811_HW_ID_CODE
        omega
      simp [hb, hb1]

/-! ## Claims about `mgos_ccs811_create` -/

/-- C7 fails in its last sentence: on a bus whose HW_ID probe answers `0x00`, `create`
returns `NULL`, and the transaction log holds a write to the device, the probe's own
write of the register address `0x20`. -/
theorem create_probe_writes_register_address :
    (mgos_ccs811_create scriptEnv world_wrong_id (some 0) 0x5A).1 = none
    ∧ (mgos_ccs811_create scriptEnv world_wrong_id (some 0) 0x5A).2.log
        = [I2COp.write 0x5A [0x20] false, I2COp.read 0x5A 1 true] :=
  ⟨rfl, rfl⟩

/-- C7, amended: `create` returns `NULL` when the bus is not supplied, and whenever a
checked bring-up step fails: the HW_ID read fails or delivers a byte other than `0x81`,
the reset write fails, the status read fails or its byte lacks FW_MODE or has ERR, the
drive-mode write fails, the drive-mode read-back fails or yields a mode other than
1-second.  When the HW_ID probe is the failing step, the only bus traffic is the probe
itself (the write of the register address `0x20` and the 1-byte read): no reset,
app-start or drive-mode write is issued. -/
theorem create_absent_on_failure (E : Env σ) (w w1 w2 w3 w4 w5 w6 w7 : World σ)
    (c : mgos_i2c) (addr : Nat) (pok cal rst app sok dset gok : Bool)
    (prx srx grx : List Nat)
    (hprobe : i2c_read_reg_n E w (some c) addr MGOS_CCS811_REG_HW_ID 1 = (pok, prx, w1))
    (hcalloc : calloc E w1 = (cal, w2))
    (hreset : mgos_i2c_write E w2 (some c) addr
                [MGOS_CCS811_REG_SW_RESET, 0x11, 0xE5, 0x72, 0x8A] true = (rst, w3))
    (happ : mgos_i2c_write E (mgos_usleep E w3 12000) (some c) addr
              [MGOS_CCS811_BOOTLOADER_REG_APP_START] true = (app, w4))
    (hstatus : i2c_read_reg_n E (mgos_usleep E w4 72000) (some c) addr
                 MGOS_CCS811_REG_STATUS 1 = (sok, srx, w5))
    (hset : mgos_i2c_write_reg_b E (mgos_usleep E w5 5000) (some c) addr
              MGOS_CCS811_REG_MEAS_MODE 0x10 = (dset, w6))
    (hget : i2c_read_reg_n E (mgos_usleep E w6 72000) (some c) addr
              MGOS_CCS811_REG_MEAS_MODE 1 = (gok, grx, w7)) :
    mgos_ccs811_create E w none addr = (none, w)
    ∧ ((pok = false ∨ buf_get [0] prx 0 ≠ 0x81
          ∨ rst = false
          ∨ sok = false
          ∨ buf_get [0] srx 0 &&& MGOS_CCS811_STATUS_FW_MODE = 0
          ∨ buf_get [0] srx 0 &&& MGOS_CCS811_STATUS_ERR ≠ 0
          ∨ dset = false
          ∨ gok = false
          ∨ (buf_get [0] grx 0 >>> 4) &&& 0x07 ≠ CCS811_DRIVE_MODE_1SEC.val) →
        (mgos_ccs811_create E w (some c) addr).1 = none)
    ∧ ((pok = false ∨ buf_get [0] prx 0 ≠ 0x81) →
        (mgos_ccs811_create E w (some c) addr).2.log
          = w.log ++ [I2COp.write addr [MGOS_CCS811_REG_HW_ID] false,
                      I2COp.read addr 1 true]) := by
  have e := create_eq E w w1 w2 w3 w4 w5 w6 w7 c addr pok cal rst app sok dset gok
    prx srx grx hprobe hcalloc hreset happ hstatus hset hget
  refine ⟨rfl, ?_, ?_⟩
  · intro hfail
    rw [e]
    simp only [mgos_ccs811_drive_mode_t.val] at hfail
    split_ifs <;> first | rfl | (exfalso; tauto)
  · intro hfail
    rw [e, if_pos hfail]
    have hl := read_reg_n_log E w (some c) addr MGOS_CCS811_REG_HW_ID 1
    rw [hprobe] at hl
    exact hl

/-- C7, amended, on a scripted bus whose HW_ID probe answers `0x00`. -/
theorem create_absent_on_failure_witness :
    (mgos_ccs811_create scriptEnv world_wrong_id (some 0) 0x5A).1 = none :=
  (create_absent_on_failure scriptEnv world_wrong_id _ _ _ _ _ _ _ 0 0x5A
    true false false false false false false [0x00] [] []
    rfl rfl rfl rfl rfl rfl rfl).2.1 (Or.inr (Or.inl (by decide)))

/-- C10 fails: on a bus where the write of the APP_START register address reports
failure (first conjunct: the write as `create` issues it, after probe, allocation,
reset and the 12 ms wait), while the device answers the probe, the status read (`0x90`)
and the drive-mode read-back as a CCS811 in firmware mode does, `create` returns a
handle. -/
theorem create_succeeds_when_app_start_write_fails :
    (mgos_i2c_write nakAppStartEnv
        (mgos_usleep nakAppStartEnv
          (mgos_ccs811_reset nakAppStartEnv
            (calloc nakAppStartEnv
              (i2c_read_reg_b nakAppStartEnv world_ccs811 (some 0) 0x5A
                MGOS_CCS811_REG_HW_ID).2).2
            (some sensor0)).2
          12000)
        (some 0) 0x5A [MGOS_CCS811_BOOTLOADER_REG_APP_START] true).1 = false
    ∧ (mgos_ccs811_create nakAppStartEnv world_ccs811 (some 0) 0x5A).1 = some sensor0 :=
  ⟨rfl, rfl⟩

/-- C10, amended: the result of the start-application write is not checked.  Whatever
that write returns (`app`), `create` goes on to the status read and returns a handle
exactly when every checked step succeeds: HW_ID reads `0x81`, the allocation and the
reset write succeed, the status read succeeds with FW_MODE set and ERR clear, the
drive-mode write succeeds and the read-back succeeds with mode 1-second; otherwise it
returns `NULL`. -/
theorem create_ignores_app_start_result (E : Env σ) (w w1 w2 w3 w4 w5 w6 w7 : World σ)
    (c : mgos_i2c) (addr : Nat) (pok cal rst app sok dset gok : Bool)
    (prx srx grx : List Nat)
    (hprobe : i2c_read_reg_n E w (some c) addr MGOS_CCS811_REG_HW_ID 1 = (pok, prx, w1))
    (hcalloc : calloc E w1 = (cal, w2))
    (hreset : mgos_i2c_write E w2 (some c) addr
                [MGOS_CCS811_REG_SW_RESET, 0x11, 0xE5, 0x72, 0x8A] true = (rst, w3))
    (happ : mgos_i2c_write E (mgos_usleep E w3 12000) (some c) addr
              [MGOS_CCS811_BOOTLOADER_REG_APP_START] true = (app, w4))
    (hstatus : i2c_read_reg_n E (mgos_usleep E w4 72000) (some c) addr
                 MGOS_CCS811_REG_STATUS 1 = (sok, srx, w5))
    (hset : mgos_i2c_write_reg_b E (mgos_usleep E w5 5000) (some c) addr
              MGOS_CCS811_REG_MEAS_MODE 0x10 = (dset, w6))
    (hget : i2c_read_reg_n E (mgos_usleep E w6 72000) (some c) addr
              MGOS_CCS811_REG_MEAS_MODE 1 = (gok, grx, w7)) :
    (mgos_ccs811_create E w (some c) addr).1
      = if pok = true ∧ buf_get [0] prx 0 = 0x81 ∧ cal = true ∧ rst = true
            ∧ sok = true
            ∧ buf_get [0] srx 0 &&& MGOS_CCS811_STATUS_FW_MODE ≠ 0
            ∧ buf_get [0] srx 0 &&& MGOS_CCS811_STATUS_ERR = 0
            ∧ dset = true
            ∧ gok = true
            ∧ (buf_get [0] grx 0 >>> 4) &&& 0x07 = CCS811_DRIVE_MODE_1SEC.val
        then some (new_sensor (some c) addr) else none := by
  have e := create_eq E w w1 w2 w3 w4 w5 w6 w7 c addr pok cal rst app sok dset gok
    prx srx grx hprobe hcalloc hreset happ hstatus hset hget
  rw [e]
  simp only [mgos_ccs811_drive_mode_t.val]
  cases pok <;> cases cal <;> cases rst <;> cases sok <;> cases dset <;> cases gok <;>
    simp <;> split_ifs <;> simp_all

/-- C10, amended, on the bus whose APP_START write reports failure (`app = false`). -/
theorem create_ignores_app_start_result_witness :
    (mgos_ccs811_create nakAppStartEnv world_ccs811 (some 0) 0x5A).1
      = if true = true ∧ buf_get [0] [0x81] 0 = 0x81 ∧ true = true ∧ true = true
            ∧ true = true
            ∧ buf_get [0] [0x90] 0 &&& MGOS_CCS811_STATUS_FW_MODE ≠ 0
            ∧ buf_get [0] [0x90] 0 &&& MGOS_CCS811_STATUS_ERR = 0
            ∧ true = true
            ∧ true = true
            ∧ (buf_get [0] [0x10] 0 >>> 4) &&& 0x07 = CCS811_DRIVE_MODE_1SEC.val
        then some (new_sensor (some 0) 0x5A) else none :=
  create_ignores_app_start_result nakAppStartEnv world_ccs811 _ _ _ _ _ _ _ 0 0x5A
    true true true false true true true [0x81] [0x90] [0x10]
    rfl rfl rfl rfl rfl rfl rfl

/-! ## Drive mode -/

/-- C1: on a device whose measurement-mode register holds the last byte written to it
and on which the register write and the register read both succeed, for each of the
five drive modes `m`, `setDriveMode m` returns success and the `getDriveMode` that
follows it returns success and yields exactly `m`. -/
theorem drive_mode_roundtrip (E : Env σ)
    (hdev : ∀ (w : World σ) (conn : Option mgos_i2c) (addr v : Nat),
      (mgos_i2c_write_reg_b E w conn addr MGOS_CCS811_REG_MEAS_MODE v).1 = true
      ∧ (i2c_read_reg_n E (mgos_i2c_write_reg_b E w conn addr MGOS_CCS811_REG_MEAS_MODE v).2
          conn addr MGOS_CCS811_REG_MEAS_MODE 1).1 = true
      ∧ (i2c_read_reg_n E (mgos_i2c_write_reg_b E w conn addr MGOS_CCS811_REG_MEAS_MODE v).2
          conn addr MGOS_CCS811_REG_MEAS_MODE 1).2.1 = [v])
    (w : World σ) (s : mgos_ccs811) (m : mgos_ccs811_drive_mode_t) (mode : Nat) :
    (mgos_ccs811_setDriveMode E w s m).1 = true
    ∧ (mgos_ccs811_getDriveMode E (mgos_ccs811_setDriveMode E w s m).2 (some s) mode).1
        = true
    ∧ (mgos_ccs811_getDriveMode E (mgos_ccs811_setDriveMode E w s m).2 (some s) mode).2.1
        = m.val := by
  obtain ⟨h1, h2, h3⟩ := hdev w s.i2c s.i2caddr ((m.val <<< 4) % 256)
  have hs : mgos_ccs811_setDriveMode E w s m
      = mgos_i2c_write_reg_b E w s.i2c s.i2caddr MGOS_CCS811_REG_MEAS_MODE
          ((m.val <<< 4) % 256) := rfl
  rw [hs]
  have hp : i2c_read_reg_n E
      (mgos_i2c_write_reg_b E w s.i2c s.i2caddr MGOS_CCS811_REG_MEAS_MODE
        ((m.val <<< 4) % 256)).2 s.i2c s.i2caddr MGOS_CCS811_REG_MEAS_MODE 1
      = (true, [(m.val <<< 4) % 256],
         (i2c_read_reg_n E
            (mgos_i2c_write_reg_b E w s.i2c s.i2caddr MGOS_CCS811_REG_MEAS_MODE
              ((m.val <<< 4) % 256)).2 s.i2c s.i2caddr MGOS_CCS811_REG_MEAS_MODE 1).2.2) := by
    rw [← h2, ← h3]
  rw [getDriveMode_eq E _ _ s mode true _ hp]
  refine ⟨h1, rfl, ?_⟩
  cases m <;> rfl

/-- C1, on the register-file device, for the 250 ms mode. -/
theorem drive_mode_roundtrip_witness :
    (mgos_ccs811_setDriveMode regEnv world_ccs811 sensor0 CCS811_DRIVE_MODE_250MS).1 = true
    ∧ (mgos_ccs811_getDriveMode regEnv
        (mgos_ccs811_setDriveMode regEnv world_ccs811 sensor0 CCS811_DRIVE_MODE_250MS).2
        (some sensor0) 0).1 = true
    ∧ (mgos_ccs811_getDriveMode regEnv
        (mgos_ccs811_setDriveMode regEnv world_ccs811 sensor0 CCS811_DRIVE_MODE_250MS).2
        (some sensor0) 0).2.1 = 4 :=
  drive_mode_roundtrip regEnv
    (fun w conn addr v => ⟨rfl, rfl, by
      simp [i2c_read_reg_n, mgos_i2c_read, mgos_i2c_write, mgos_i2c_write_reg_b,
        mgos_usleep, regEnv, MGOS_CCS811_REG_MEAS_MODE, List.range_succ]⟩)
    world_ccs811 sensor0 CCS811_DRIVE_MODE_250MS 0

end CCS811
